import Mathlib

/-!
Shallow embedding of the `bypass` CLI core (Transport Client retry loop,
Reference Resolver, Creation Pipeline) for verification of its
natural-language specification.  Definitions are translated from the Rust
sources (`src/api/client.rs`, `src/resolver.rs`, `src/commands/create.rs`,
`src/template.rs`, `src/error.rs`, `src/api/models.rs`,
`src/input/models.rs`).  Hash maps are modelled as association lists with
overwrite-on-insert; network and filesystem effects are modelled as
explicit oracles; Rust `Result` is modelled as `Except`.
-/

set_option maxHeartbeats 1000000

namespace Bypass

/-- Single-quote character, used when building user-facing messages. -/
def sq : String := String.singleton (Char.ofNat 39)

/-- String-keyed map modelled as an association list.  `insert` overwrites
any previous binding of the key, matching `HashMap::insert`. -/
def Smap (α : Type) : Type := List (String × α)

def Smap.empty {α : Type} : Smap α := []

def Smap.insert {α : Type} (m : Smap α) (k : String) (v : α) : Smap α :=
  (k, v) :: List.filter (fun p => p.1 != k) m

def Smap.get? {α : Type} (m : Smap α) (k : String) : Option α :=
  (List.find? (fun p => p.1 == k) m).map (fun p => p.2)

def Smap.containsKey {α : Type} (m : Smap α) (k : String) : Bool :=
  (List.find? (fun p => p.1 == k) m).isSome

def Smap.keys {α : Type} (m : Smap α) : List String :=
  List.map (fun p => p.1) m

/-- Model of Rust `str::trim`: drop whitespace from both ends.  Defined
over the character list so that it evaluates inside the kernel. -/
def strTrim (s : String) : String :=
  ⟨(((s.data.dropWhile Char.isWhitespace).reverse.dropWhile
      Char.isWhitespace).reverse)⟩

/-- Numeric value of a nonempty all-digit character list, `none` otherwise.
Helper for modelling Rust integer parsing. -/
def parseDigits (l : List Char) : Option Nat :=
  if l.isEmpty then none
  else
    l.foldl
      (fun acc c =>
        match acc with
        | none => none
        | some n => if c.isDigit then some (n * 10 + (c.toNat - 48)) else none)
      (some 0)

/-- Model of Rust `str::parse::<i64>()`: optional sign, then one or more
ASCII digits, value within the `i64` range.  No surrounding whitespace is
accepted. -/
def parseI64 (s : String) : Option Int :=
  match s.data with
  | '+' :: rest =>
      (parseDigits rest).bind fun n =>
        if n ≤ 2 ^ 63 - 1 then some (n : Int) else none
  | '-' :: rest =>
      (parseDigits rest).bind fun n =>
        if n ≤ 2 ^ 63 then some (-(n : Int)) else none
  | cs =>
      (parseDigits cs).bind fun n =>
        if n ≤ 2 ^ 63 - 1 then some (n : Int) else none

/-- Model of Rust `str::parse::<u64>()`: optional `+`, then one or more
ASCII digits, value within the `u64` range. -/
def parseU64 (s : String) : Option Nat :=
  match s.data with
  | '+' :: rest =>
      (parseDigits rest).bind fun n => if n < 2 ^ 64 then some n else none
  | cs =>
      (parseDigits cs).bind fun n => if n < 2 ^ 64 then some n else none

instance {ε α : Type} [DecidableEq ε] [DecidableEq α] :
    DecidableEq (Except ε α) := fun a b =>
  match a, b with
  | .ok x, .ok y =>
    if h : x = y then .isTrue (by rw [h]) else .isFalse (by simp [h])
  | .error x, .error y =>
    if h : x = y then .isTrue (by rw [h]) else .isFalse (by simp [h])
  | .ok _, .error _ => .isFalse (by simp)
  | .error _, .ok _ => .isFalse (by simp)

/-- `src/error.rs`: the `BypassError` enum (plus `other` for `anyhow`
errors produced outside the enum, e.g. template loading). -/
inductive BypassError where
  | api (status : Nat) (message : String)
  | nameNotFound (resource_type : String) (name : String)
  | invalidInput (msg : String)
  | unsupportedFormat (msg : String)
  | other (msg : String)
deriving Repr, DecidableEq

/-- The `thiserror`-derived display strings of `BypassError`. -/
def BypassError.toMessage : BypassError → String
  | .api status message => s!"Shortcut API error (HTTP {status}): {message}"
  | .nameNotFound rt name =>
      "Name not found – no " ++ rt ++ " named " ++ sq ++ name ++ sq ++
        " in this workspace"
  | .invalidInput msg => s!"Invalid input: {msg}"
  | .unsupportedFormat msg =>
      "Unsupported file format " ++ sq ++ msg ++ sq ++ ": use .yaml, .csv, or .xlsx"
  | .other msg => msg

/- ----------------------------------------------------------------------
`src/api/models.rs`: remote-entity snapshots and create requests.
---------------------------------------------------------------------- -/

structure MemberProfile where
  name : String
  mention_name : String
  email_address : Option String
deriving Repr, DecidableEq

structure Member where
  id : String
  profile : MemberProfile
  disabled : Bool
deriving Repr, DecidableEq

structure Group where
  id : String
  name : String
  mention_name : String
  archived : Bool
deriving Repr, DecidableEq

structure WorkflowState where
  id : Int
  name : String
  state_type : String
deriving Repr, DecidableEq

structure Workflow where
  id : Int
  name : String
  default_state_id : Int
  states : List WorkflowState
deriving Repr, DecidableEq

structure CreateLabelParams where
  name : String
deriving Repr, DecidableEq

structure CreateObjectiveRequest where
  name : String
  description : Option String
  state : Option String
deriving Repr, DecidableEq

structure CreateEpicRequest where
  name : String
  description : Option String
  state : Option String
  objective_ids : Option (List Int)
  owner_ids : Option (List String)
  group_ids : Option (List String)
  labels : Option (List CreateLabelParams)
  planned_start_date : Option String
  deadline : Option String
deriving Repr, DecidableEq

structure CreateStoryRequest where
  name : String
  story_type : Option String
  description : Option String
  owner_ids : Option (List String)
  group_id : Option String
  epic_id : Option Int
  workflow_state_id : Option Int
  labels : Option (List CreateLabelParams)
  estimate : Option Int
  deadline : Option String
deriving Repr, DecidableEq

structure Objective where
  id : Int
  name : String
  description : Option String
  state : String
  app_url : Option String
deriving Repr, DecidableEq

structure Epic where
  id : Int
  name : String
  description : Option String
  state : String
  app_url : Option String
deriving Repr, DecidableEq

structure Story where
  id : Int
  name : String
  story_type : String
  app_url : Option String
deriving Repr, DecidableEq

/- ----------------------------------------------------------------------
`src/input/models.rs`: pending records produced by the input layer.
---------------------------------------------------------------------- -/

structure InputObjective where
  name : String
  description : Option String
  state : Option String
deriving Repr, DecidableEq

structure InputEpic where
  name : String
  description : Option String
  objective : Option String
  owners : List String
  teams : List String
  labels : List String
  state : Option String
  start_date : Option String
  deadline : Option String
  template : Option String
deriving Repr, DecidableEq

structure InputStory where
  name : String
  story_type : Option String
  description : Option String
  epic : Option String
  owners : List String
  team : Option String
  labels : List String
  estimate : Option Int
  due_date : Option String
  workflow_state : Option String
deriving Repr, DecidableEq

structure InputFile where
  objectives : List InputObjective
  epics : List InputEpic
  stories : List InputStory
deriving Repr, DecidableEq

/- ----------------------------------------------------------------------
`src/resolver.rs`: the Reference Resolver.
---------------------------------------------------------------------- -/

structure Resolver where
  member_map : Smap String
  group_map : Smap String
  workflow_state_map : Smap Int
  default_workflow_state_id : Option Int
  objective_map : Smap Int
  epic_map : Smap Int

/-- The member-map loop of `Resolver::new`: disabled members are skipped;
full name, mention name, and (when present) email all map to the member
UUID. -/
def buildMemberMap (members : List Member) : Smap String :=
  members.foldl
    (fun m mem =>
      if mem.disabled then m
      else
        let m := m.insert mem.profile.name mem.id
        let m := m.insert mem.profile.mention_name mem.id
        match mem.profile.email_address with
        | some email => m.insert email mem.id
        | none => m)
    Smap.empty

/-- The group-map loop of `Resolver::new`: archived groups are skipped;
name and mention name map to the group UUID. -/
def buildGroupMap (groups : List Group) : Smap String :=
  groups.foldl
    (fun m g =>
      if g.archived then m
      else (m.insert g.name g.id).insert g.mention_name g.id)
    Smap.empty

/-- One step of the inner state loop of `Resolver::new`: insert the state
into the name map (last write wins) and set the default to this state's id
when the default is still unset and the state is tagged "unstarted". -/
def workflowStateStep (acc : Smap Int × Option Int) (st : WorkflowState) :
    Smap Int × Option Int :=
  let map := acc.1.insert st.name st.id
  let d := if acc.2.isNone && st.state_type == "unstarted" then some st.id else acc.2
  (map, d)

/-- One step of the outer workflow loop of `Resolver::new`: process all
states, then fall back to the workflow's declared default state when the
default is still unset. -/
def workflowStep (acc : Smap Int × Option Int) (wf : Workflow) :
    Smap Int × Option Int :=
  let inner := wf.states.foldl workflowStateStep acc
  if inner.2.isNone then (inner.1, some wf.default_state_id) else inner

/-- The workflow-state loop of `Resolver::new`, producing the state name
map and the default workflow state id. -/
def buildWorkflowMaps (workflows : List Workflow) : Smap Int × Option Int :=
  workflows.foldl workflowStep (Smap.empty, none)

/-- The pure tail of `Resolver::new` once the three fetches succeeded. -/
def mkResolver (members : List Member) (groups : List Group)
    (workflows : List Workflow) : Resolver :=
  { member_map := buildMemberMap members
    group_map := buildGroupMap groups
    workflow_state_map := (buildWorkflowMaps workflows).1
    default_workflow_state_id := (buildWorkflowMaps workflows).2
    objective_map := Smap.empty
    epic_map := Smap.empty }

/-- `Resolver::new`: `tokio::try_join!` on the three reads — the
construction yields a resolver only when all three calls succeed, and the
first failure fails the whole construction. -/
def Resolver.new (members : Except BypassError (List Member))
    (groups : Except BypassError (List Group))
    (workflows : Except BypassError (List Workflow)) :
    Except BypassError Resolver := do
  let ms ← members
  let gs ← groups
  let ws ← workflows
  pure (mkResolver ms gs ws)

def Resolver.resolve_member (r : Resolver) (name : String) :
    Except BypassError String :=
  match r.member_map.get? (strTrim name) with
  | some id => .ok id
  | none => .error (.nameNotFound "user" name)

def Resolver.resolve_members (r : Resolver) (names : List String) :
    Except BypassError (List String) :=
  names.mapM r.resolve_member

def Resolver.resolve_group (r : Resolver) (name : String) :
    Except BypassError String :=
  match r.group_map.get? (strTrim name) with
  | some id => .ok id
  | none => .error (.nameNotFound "team" name)

def Resolver.resolve_groups (r : Resolver) (names : List String) :
    Except BypassError (List String) :=
  names.mapM r.resolve_group

def Resolver.resolve_workflow_state (r : Resolver) (name : String) :
    Except BypassError Int :=
  match r.workflow_state_map.get? (strTrim name) with
  | some id => .ok id
  | none => .error (.nameNotFound "workflow state" name)

/-- `Resolver::resolve_objective`: a trimmed input that parses as an `i64`
is a pass-through numeric ID; otherwise the dynamic objective map is
consulted under the trimmed name. -/
def Resolver.resolve_objective (r : Resolver) (name : String) :
    Except BypassError Int :=
  match parseI64 (strTrim name) with
  | some id => .ok id
  | none =>
    match r.objective_map.get? (strTrim name) with
    | some id => .ok id
    | none => .error (.nameNotFound "objective" name)

/-- `Resolver::resolve_epic`: same shape as `resolve_objective`. -/
def Resolver.resolve_epic (r : Resolver) (name : String) :
    Except BypassError Int :=
  match parseI64 (strTrim name) with
  | some id => .ok id
  | none =>
    match r.epic_map.get? (strTrim name) with
    | some id => .ok id
    | none => .error (.nameNotFound "epic" name)

def Resolver.register_objective (r : Resolver) (name : String) (id : Int) :
    Resolver :=
  { r with objective_map := r.objective_map.insert name id }

def Resolver.register_epic (r : Resolver) (name : String) (id : Int) :
    Resolver :=
  { r with epic_map := r.epic_map.insert name id }

def Resolver.available_members (r : Resolver) : List String :=
  r.member_map.keys

def Resolver.available_groups (r : Resolver) : List String :=
  r.group_map.keys

def Resolver.available_workflow_states (r : Resolver) : List String :=
  r.workflow_state_map.keys

/- ----------------------------------------------------------------------
`src/api/client.rs`: the Transport Client retry loop.
---------------------------------------------------------------------- -/

/-- An HTTP response as observed by `send_with_retry`: its status code and
the raw `Retry-After` header value when one is present. -/
structure HttpResp where
  status : Nat
  retryAfter : Option String
deriving Repr, DecidableEq

/-- `RETRYABLE.contains(&status)`. -/
def retryable (status : Nat) : Bool :=
  status == 429 || status == 500 || status == 503 || status == 504

/-- The delay computed by `send_with_retry` at a given attempt: on a 429 a
present and parseable `Retry-After: <seconds>` header wins, otherwise
exponential backoff `BASE_DELAY * (1 << attempt)`; everything is capped by
`MAX_DELAY` (30 seconds). -/
def backoffDelay (resp : HttpResp) (attempt : Nat) : Nat :=
  min
    (if resp.status == 429 then
      match resp.retryAfter.bind parseU64 with
      | some secs => secs
      | none => 2 ^ attempt
    else 2 ^ attempt)
    30

/-- The retry loop of `send_with_retry`, over a response oracle giving the
response to the k-th issued request.  Returns the final response, the
number of requests issued, and the list of delays slept between requests.
The loop's only exit is its own `attempt < 5` guard; the structural `fuel`
argument exists for termination only and never runs out when the loop is
entered with `fuel > 5 - attempt` (as `sendWithRetry` does). -/
def sendWithRetryAux (responses : Nat → HttpResp) :
    Nat → Nat → HttpResp × Nat × List Nat
  | 0, attempt => (responses attempt, 1, [])
  | fuel + 1, attempt =>
    let resp := responses attempt
    if retryable resp.status && attempt < 5 then
      let rest := sendWithRetryAux responses fuel (attempt + 1)
      (rest.1, rest.2.1 + 1, backoffDelay resp attempt :: rest.2.2)
    else
      (resp, 1, [])

/-- `send_with_retry`, starting at attempt 0. -/
def sendWithRetry (responses : Nat → HttpResp) : HttpResp × Nat × List Nat :=
  sendWithRetryAux responses 6 0

/-- The attempt index at which the retry loop stops: the first attempt
whose response is not retryable, or attempt 5.  Mirrors the recursion
structure of `sendWithRetryAux`. -/
def stopIndexAux (responses : Nat → HttpResp) : Nat → Nat → Nat
  | 0, attempt => attempt
  | fuel + 1, attempt =>
    if retryable (responses attempt).status && attempt < 5 then
      stopIndexAux responses fuel (attempt + 1)
    else
      attempt

def stopIndex (responses : Nat → HttpResp) : Nat :=
  stopIndexAux responses 6 0

/- ----------------------------------------------------------------------
`src/template.rs`: epic description templates.
---------------------------------------------------------------------- -/

structure Template where
  content : String
deriving Repr, DecidableEq

def joinComma (l : List String) : String := String.intercalate ", " l

/-- `Template::render`: replace the documented placeholders by the epic's
field values; unrecognised placeholders are left as-is. -/
def Template.render (t : Template) (epic : InputEpic) : String :=
  let r := t.content.replace "\x7b\x7bname\x7d\x7d" epic.name
  let r := r.replace "\x7b\x7bdescription\x7d\x7d" (epic.description.getD "")
  let r := r.replace "\x7b\x7bobjective\x7d\x7d" (epic.objective.getD "")
  let r := r.replace "\x7b\x7bstart_date\x7d\x7d" (epic.start_date.getD "")
  let r := r.replace "\x7b\x7bdeadline\x7d\x7d" (epic.deadline.getD "")
  let r := r.replace "\x7b\x7bowners\x7d\x7d" (joinComma epic.owners)
  let r := r.replace "\x7b\x7bteams\x7d\x7d" (joinComma epic.teams)
  r.replace "\x7b\x7blabels\x7d\x7d" (joinComma epic.labels)

/- ----------------------------------------------------------------------
`src/commands/create.rs`: the Creation Pipeline.
---------------------------------------------------------------------- -/

/-- The create-endpoint side of the Transport Client, as used by the
apply-mode pipeline: an oracle giving each create call's outcome. -/
structure ApplyClient where
  createObjective : CreateObjectiveRequest → Except BypassError Objective
  createEpic : CreateEpicRequest → Except BypassError Epic
  createStory : CreateStoryRequest → Except BypassError Story

/-- A create call issued against the remote API. -/
inductive CreateCall where
  | objective (req : CreateObjectiveRequest)
  | epic (req : CreateEpicRequest)
  | story (req : CreateStoryRequest)
deriving Repr, DecidableEq

/-- The `RunResults` struct of `create.rs`. -/
structure RunResults where
  objectives_ok : Nat
  epics_ok : Nat
  stories_ok : Nat
  errors : List String
deriving Repr, DecidableEq

def RunResults.empty : RunResults := ⟨0, 0, 0, []⟩

def objectiveFailMsg (name msg : String) : String :=
  "Objective " ++ sq ++ name ++ sq ++ ": " ++ msg

def epicFailMsg (name msg : String) : String :=
  "Epic " ++ sq ++ name ++ sq ++ ": " ++ msg

def storyFailMsg (name msg : String) : String :=
  "Story " ++ sq ++ name ++ sq ++ ": " ++ msg

/-- `labels_param`. -/
def labels_param (names : List String) : Option (List CreateLabelParams) :=
  if names.isEmpty then none
  else some (names.map (fun n => { name := n }))

/-- The request built by `build_and_create_objective`. -/
def build_objective_request (input : InputObjective) : CreateObjectiveRequest :=
  { name := input.name, description := input.description, state := input.state }

/-- `if input.owners.is_empty() { None } else { Some(resolver.resolve_members(..)?) }`. -/
def ownerIdsParam (r : Resolver) (owners : List String) :
    Except BypassError (Option (List String)) :=
  if owners.isEmpty then .ok none
  else (r.resolve_members owners).map some

/-- `if input.teams.is_empty() { None } else { Some(resolver.resolve_groups(..)?) }`. -/
def groupIdsParam (r : Resolver) (teams : List String) :
    Except BypassError (Option (List String)) :=
  if teams.isEmpty then .ok none
  else (r.resolve_groups teams).map some

/-- `input.objective.as_ref().map(|n| vec![resolver.resolve_objective(n)?]).transpose()?`. -/
def objectiveIdsParam (r : Resolver) (objective : Option String) :
    Except BypassError (Option (List Int)) :=
  match objective with
  | some name => (r.resolve_objective name).map (fun id => some [id])
  | none => .ok none

/-- `input.team.as_ref().map(|t| resolver.resolve_group(t)).transpose()?`. -/
def storyGroupIdParam (r : Resolver) (team : Option String) :
    Except BypassError (Option String) :=
  match team with
  | some t => (r.resolve_group t).map some
  | none => .ok none

/-- `input.epic.as_ref().map(|e| resolver.resolve_epic(e)).transpose()?`. -/
def storyEpicIdParam (r : Resolver) (epic : Option String) :
    Except BypassError (Option Int) :=
  match epic with
  | some e => (r.resolve_epic e).map some
  | none => .ok none

/-- The `workflow_state_id` computation of `build_and_create_story`: an
explicit stage name is resolved, an absent one falls back to the
resolver's default workflow state id. -/
def storyWorkflowStateParam (r : Resolver) (ws : Option String) :
    Except BypassError (Option Int) :=
  match ws with
  | some name => (r.resolve_workflow_state name).map some
  | none => .ok r.default_workflow_state_id

/-- The request built by `build_and_create_epic` (resolution may fail;
each `?` is an explicit match). -/
def build_epic_request (r : Resolver) (input : InputEpic)
    (template : Option Template) : Except BypassError CreateEpicRequest :=
  match ownerIdsParam r input.owners with
  | .error e => .error e
  | .ok owner_ids =>
    match groupIdsParam r input.teams with
    | .error e => .error e
    | .ok group_ids =>
      match objectiveIdsParam r input.objective with
      | .error e => .error e
      | .ok objective_ids =>
        let labels := labels_param input.labels
        let description :=
          match template with
          | some t => some (t.render input)
          | none => input.description
        .ok
          { name := input.name
            description := description
            state := input.state
            objective_ids := objective_ids
            owner_ids := owner_ids
            group_ids := group_ids
            labels := labels
            planned_start_date := input.start_date
            deadline := input.deadline }

/-- The request built by `build_and_create_story` (resolution may fail;
each `?` is an explicit match); a story without an explicit workflow
state gets the resolver's default. -/
def build_story_request (r : Resolver) (input : InputStory) :
    Except BypassError CreateStoryRequest :=
  match ownerIdsParam r input.owners with
  | .error e => .error e
  | .ok owner_ids =>
    match storyGroupIdParam r input.team with
    | .error e => .error e
    | .ok group_id =>
      match storyEpicIdParam r input.epic with
      | .error e => .error e
      | .ok epic_id =>
        match storyWorkflowStateParam r input.workflow_state with
        | .error e => .error e
        | .ok workflow_state_id =>
          .ok
            { name := input.name
              story_type := input.story_type
              description := input.description
              owner_ids := owner_ids
              group_id := group_id
              epic_id := epic_id
              workflow_state_id := workflow_state_id
              labels := labels_param input.labels
              estimate := input.estimate
              deadline := input.due_date }

/-- The objectives loop of `run`: on success register the objective and
bump the counter, on failure append an error entry; never abort.  Also
records the create calls issued. -/
def objTier (client : ApplyClient) :
    List InputObjective → Resolver → RunResults → List CreateCall →
    Resolver × RunResults × List CreateCall
  | [], r, res, calls => (r, res, calls)
  | obj :: rest, r, res, calls =>
    let req := build_objective_request obj
    match client.createObjective req with
    | .ok created =>
      objTier client rest (r.register_objective obj.name created.id)
        { res with objectives_ok := res.objectives_ok + 1 }
        (calls ++ [.objective req])
    | .error e =>
      objTier client rest r
        { res with errors := res.errors ++ [objectiveFailMsg obj.name e.toMessage] }
        (calls ++ [.objective req])

/-- `epic.template.as_ref().map(|p| Template::load(p)).transpose()?`. -/
def loadPerItemTemplate (loadTmpl : String → Except String Template)
    (path : Option String) : Except String (Option Template) :=
  match path with
  | some p => (loadTmpl p).map some
  | none => .ok none

/-- `.or_else(|| global_template.clone())`: the loaded per-item template
wins over the run-wide one. -/
def effectiveTemplate (perItem globalTemplate : Option Template) :
    Option Template :=
  match perItem with
  | some t => some t
  | none => globalTemplate

/-- The epics loop of `run`.  The per-epic template load result is
propagated with `?`, so a load failure aborts the whole run; resolution
and API failures only append an error entry. -/
def epicTier (client : ApplyClient) (loadTmpl : String → Except String Template)
    (globalTemplate : Option Template) :
    List InputEpic → Resolver → RunResults → List CreateCall →
    Except String (Resolver × RunResults × List CreateCall)
  | [], r, res, calls => .ok (r, res, calls)
  | epic :: rest, r, res, calls =>
    match loadPerItemTemplate loadTmpl epic.template with
    | .error e => .error e
    | .ok perItem =>
    let template := effectiveTemplate perItem globalTemplate
    match build_epic_request r epic template with
    | .ok req =>
      match client.createEpic req with
      | .ok created =>
        epicTier client loadTmpl globalTemplate rest
          (r.register_epic epic.name created.id)
          { res with epics_ok := res.epics_ok + 1 }
          (calls ++ [.epic req])
      | .error e =>
        epicTier client loadTmpl globalTemplate rest r
          { res with errors := res.errors ++ [epicFailMsg epic.name e.toMessage] }
          (calls ++ [.epic req])
    | .error e =>
      epicTier client loadTmpl globalTemplate rest r
        { res with errors := res.errors ++ [epicFailMsg epic.name e.toMessage] }
        calls

/-- The stories loop of `run`: stories are never registered. -/
def storyTier (client : ApplyClient) :
    List InputStory → Resolver → RunResults → List CreateCall →
    RunResults × List CreateCall
  | [], _, res, calls => (res, calls)
  | story :: rest, r, res, calls =>
    match build_story_request r story with
    | .ok req =>
      match client.createStory req with
      | .ok _ =>
        storyTier client rest r
          { res with stories_ok := res.stories_ok + 1 }
          (calls ++ [.story req])
      | .error e =>
        storyTier client rest r
          { res with errors := res.errors ++ [storyFailMsg story.name e.toMessage] }
          (calls ++ [.story req])
    | .error e =>
      storyTier client rest r
        { res with errors := res.errors ++ [storyFailMsg story.name e.toMessage] }
        calls

/-- The apply-mode body of `run`: objectives, then epics, then stories. -/
def runPipeline (client : ApplyClient)
    (loadTmpl : String → Except String Template)
    (globalTemplate : Option Template) (input : InputFile)
    (resolver : Resolver) : Except String (RunResults × List CreateCall) :=
  let step1 := objTier client input.objectives resolver RunResults.empty []
  match epicTier client loadTmpl globalTemplate input.epics
      step1.1 step1.2.1 step1.2.2 with
  | .error e => .error e
  | .ok step2 =>
    let step3 := storyTier client input.stories step2.1 step2.2.1 step2.2.2
    .ok (step3.1, step3.2)

/- ----------------------------------------------------------------------
Dry-run validation (`dry_run` and helpers in `create.rs`).
---------------------------------------------------------------------- -/

/-- Insertion of a string into a sorted list (helper for `list_sample`). -/
def insertSorted (x : String) : List String → List String
  | [] => [x]
  | y :: rest => if x ≤ y then x :: y :: rest else y :: insertSorted x rest

def sortStrings (l : List String) : List String := l.foldr insertSorted []

/-- Tail of `Vec::dedup`: drop elements equal to the previous kept one. -/
def dedupAdjacentAux (prev : String) : List String → List String
  | [] => []
  | b :: rest =>
    if prev == b then dedupAdjacentAux prev rest
    else b :: dedupAdjacentAux b rest

/-- `Vec::dedup`: drop adjacent duplicates, keeping the first of a run. -/
def dedupAdjacent : List String → List String
  | [] => []
  | a :: rest => a :: dedupAdjacentAux a rest

/-- `list_sample`: sort, dedup, show at most 5 names plus a remainder
count. -/
def list_sample (items : List String) : String :=
  let sorted := dedupAdjacent (sortStrings items)
  let preview := sorted.take 5
  if sorted.length > 5 then
    String.intercalate ", " preview ++ " … (+" ++ toString (sorted.length - 5) ++ ")"
  else
    String.intercalate ", " preview

def objectiveNameRequiredMsg : String :=
  "Objective: " ++ sq ++ "name" ++ sq ++ " is required"

def epicNameRequiredMsg : String :=
  "Epic: " ++ sq ++ "name" ++ sq ++ " is required"

def storyNameRequiredMsg : String :=
  "Story: " ++ sq ++ "name" ++ sq ++ " is required"

def objectiveInvalidStateMsg (name state : String) : String :=
  "Objective " ++ sq ++ name ++ sq ++ ": invalid state " ++ sq ++ state ++ sq ++
    ". Must be " ++ sq ++ "in progress" ++ sq ++ ", " ++ sq ++ "to do" ++ sq ++
    ", or " ++ sq ++ "done" ++ sq

def epicInvalidStateMsg (name state : String) : String :=
  "Epic " ++ sq ++ name ++ sq ++ ": invalid state " ++ sq ++ state ++ sq ++
    ". Must be " ++ sq ++ "in progress" ++ sq ++ ", " ++ sq ++ "to do" ++ sq ++
    ", or " ++ sq ++ "done" ++ sq

def epicUnknownUserMsg (name owner avail : String) : String :=
  "Epic " ++ sq ++ name ++ sq ++ ": unknown user " ++ sq ++ owner ++ sq ++
    ". Available: " ++ avail

def epicUnknownTeamMsg (name team avail : String) : String :=
  "Epic " ++ sq ++ name ++ sq ++ ": unknown team " ++ sq ++ team ++ sq ++
    ". Available: " ++ avail

def epicObjectiveNotFoundMsg (name obj : String) : String :=
  "Epic " ++ sq ++ name ++ sq ++ ": objective " ++ sq ++ obj ++ sq ++
    " not found in current batch (use a numeric ID to reference a pre-existing objective)"

def epicTemplateNotFoundMsg (name path : String) : String :=
  "Epic " ++ sq ++ name ++ sq ++ ": template file " ++ sq ++ path ++ sq ++
    " not found"

def storyInvalidTypeMsg (name t : String) : String :=
  "Story " ++ sq ++ name ++ sq ++ ": invalid type " ++ sq ++ t ++ sq ++
    ". Must be " ++ sq ++ "bug" ++ sq ++ ", " ++ sq ++ "chore" ++ sq ++
    ", or " ++ sq ++ "feature" ++ sq

def storyUnknownUserMsg (name owner avail : String) : String :=
  "Story " ++ sq ++ name ++ sq ++ ": unknown user " ++ sq ++ owner ++ sq ++
    ". Available: " ++ avail

def storyUnknownTeamMsg (name team avail : String) : String :=
  "Story " ++ sq ++ name ++ sq ++ ": unknown team " ++ sq ++ team ++ sq ++
    ". Available: " ++ avail

def storyEpicNotFoundMsg (name epic : String) : String :=
  "Story " ++ sq ++ name ++ sq ++ ": epic " ++ sq ++ epic ++ sq ++
    " not found in current batch (use a numeric ID to reference a pre-existing epic)"

def storyUnknownWorkflowStateMsg (name ws avail : String) : String :=
  "Story " ++ sq ++ name ++ sq ++ ": unknown workflow state " ++ sq ++ ws ++
    sq ++ ". Available: " ++ avail

/-- `validate_objective_state`. -/
def validate_objective_state (state name : String) : List String :=
  if ["in progress", "to do", "done"].contains state then []
  else [objectiveInvalidStateMsg name state]

/-- `validate_epic_state`. -/
def validate_epic_state (state name : String) : List String :=
  if ["in progress", "to do", "done"].contains state then []
  else [epicInvalidStateMsg name state]

/-- The objective checks of `dry_run` (no early `continue` for
objectives: an empty name and a bad state both report). -/
def dryRunObjectiveErrors (obj : InputObjective) : List String :=
  (if obj.name == "" then [objectiveNameRequiredMsg] else []) ++
    (match obj.state with
    | some st => validate_objective_state st obj.name
    | none => [])

/-- The epic checks of `dry_run`: an empty name short-circuits; the
objective reference check parses the raw string, compares it untrimmed
against the batch objective names, and looks up its trimmed form in the
dynamic objective map. -/
def dryRunEpicErrors (r : Resolver) (batchObjectives : List String)
    (fileExists : String → Bool) (epic : InputEpic) : List String :=
  if epic.name == "" then [epicNameRequiredMsg]
  else
    (match epic.state with
    | some st => validate_epic_state st epic.name
    | none => []) ++
    (epic.owners.filter (fun o => !(r.member_map.containsKey (strTrim o)))).map
      (fun o => epicUnknownUserMsg epic.name o (list_sample r.available_members)) ++
    (epic.teams.filter (fun t => !(r.group_map.containsKey (strTrim t)))).map
      (fun t => epicUnknownTeamMsg epic.name t (list_sample r.available_groups)) ++
    (match epic.objective with
    | some obj =>
      if (parseI64 obj).isNone && !(batchObjectives.contains obj) &&
          !(r.objective_map.containsKey (strTrim obj)) then
        [epicObjectiveNotFoundMsg epic.name obj]
      else []
    | none => []) ++
    (match epic.template with
    | some p => if !(fileExists p) then [epicTemplateNotFoundMsg epic.name p] else []
    | none => [])

/-- The story checks of `dry_run`. -/
def dryRunStoryErrors (r : Resolver) (batchEpics : List String)
    (story : InputStory) : List String :=
  if story.name == "" then [storyNameRequiredMsg]
  else
    (match story.story_type with
    | some t =>
      if !(["bug", "chore", "feature"].contains t) then
        [storyInvalidTypeMsg story.name t]
      else []
    | none => []) ++
    (story.owners.filter (fun o => !(r.member_map.containsKey (strTrim o)))).map
      (fun o => storyUnknownUserMsg story.name o (list_sample r.available_members)) ++
    (match story.team with
    | some t =>
      if !(r.group_map.containsKey (strTrim t)) then
        [storyUnknownTeamMsg story.name t (list_sample r.available_groups)]
      else []
    | none => []) ++
    (match story.epic with
    | some e =>
      if (parseI64 e).isNone && !(batchEpics.contains e) &&
          !(r.epic_map.containsKey (strTrim e)) then
        [storyEpicNotFoundMsg story.name e]
      else []
    | none => []) ++
    (match story.workflow_state with
    | some ws =>
      if !(r.workflow_state_map.containsKey (strTrim ws)) then
        [storyUnknownWorkflowStateMsg story.name ws
          (list_sample r.available_workflow_states)]
      else []
    | none => [])

/-- `dry_run`: collect all violations over the three tiers, in order,
without issuing any create call. -/
def dryRun (input : InputFile) (r : Resolver) (fileExists : String → Bool) :
    List String :=
  let batchObjectives := input.objectives.map (fun o => o.name)
  let batchEpics := input.epics.map (fun e => e.name)
  (input.objectives.flatMap dryRunObjectiveErrors) ++
    (input.epics.flatMap (dryRunEpicErrors r batchObjectives fileExists)) ++
    (input.stories.flatMap (dryRunStoryErrors r batchEpics))

/-- Outcome of the `create` command after the mode dispatch in `run`. -/
inductive CommandOutcome where
  | applied (result : Except String (RunResults × List CreateCall))
  | validated (violations : List String)
deriving Repr

/-- The mode dispatch of `run`: with `--dry-run` the command validates and
returns, otherwise it executes the apply-mode pipeline. -/
def executeCreate (dryRunFlag : Bool) (client : ApplyClient)
    (loadTmpl : String → Except String Template)
    (globalTemplate : Option Template) (fileExists : String → Bool)
    (input : InputFile) (resolver : Resolver) : CommandOutcome :=
  if dryRunFlag then .validated (dryRun input resolver fileExists)
  else .applied (runPipeline client loadTmpl globalTemplate input resolver)

/-- The create calls issued by a command outcome. -/
def CommandOutcome.createCalls : CommandOutcome → List CreateCall
  | .applied (.ok (_, calls)) => calls
  | .applied (.error _) => []
  | .validated _ => []

/- ----------------------------------------------------------------------
Derived definitions used by the theorems below.
---------------------------------------------------------------------- -/

/-- ID of the first state tagged "unstarted" in a state list. -/
def firstUnstartedId (states : List WorkflowState) : Option Int :=
  (states.find? (fun st => st.state_type == "unstarted")).map (fun st => st.id)

/-- Modelled from the spec, for comparison with the code: "a single
default-stage ID chosen as the first stage tagged unstarted across all
workflow definitions, falling back to the first definition's declared
default if none is tagged unstarted". -/
def specDefaultStageId (workflows : List Workflow) : Option Int :=
  match firstUnstartedId (workflows.flatMap (fun wf => wf.states)) with
  | some id => some id
  | none => workflows.head?.map (fun wf => wf.default_state_id)

/-- What the code actually computes: the first "unstarted" stage of the
first workflow definition, else the first definition's declared default;
later definitions never contribute. -/
def firstWorkflowDefault : List Workflow → Option Int
  | [] => none
  | wf :: _ => some ((firstUnstartedId wf.states).getD wf.default_state_id)

/-- A sequence of `register_objective` calls applied in order. -/
def applyObjectiveRegs (later : List (String × Int)) (r : Resolver) : Resolver :=
  later.foldl (fun acc p => acc.register_objective p.1 p.2) r

/-- A sequence of `register_epic` calls applied in order. -/
def applyEpicRegs (later : List (String × Int)) (r : Resolver) : Resolver :=
  later.foldl (fun acc p => acc.register_epic p.1 p.2) r

/- Concrete fixtures for counterexamples and witnesses. -/

def emptyResolver : Resolver :=
  { member_map := Smap.empty, group_map := Smap.empty,
    workflow_state_map := Smap.empty, default_workflow_state_id := none,
    objective_map := Smap.empty, epic_map := Smap.empty }

/-- A resolver whose dynamic maps bind the numeric-looking name "123" to
IDs different from 123. -/
def passthroughResolver : Resolver :=
  { emptyResolver with
    objective_map := [("123", 999)], epic_map := [("123", 888)] }

/-- Two workflow definitions: the first has no "unstarted" stage (declared
default 10), the second has the unstarted stage 20. -/
def c1Workflows : List Workflow :=
  [{ id := 1, name := "W1", default_state_id := 10,
     states := [{ id := 1, name := "Doing", state_type := "started" }] },
   { id := 2, name := "W2", default_state_id := 99,
     states := [{ id := 20, name := "Todo", state_type := "unstarted" }] }]

/-- A resolver as built for a workspace with one team "alpha" and one
workflow state "Backlog". -/
def smallResolver : Resolver :=
  { member_map := Smap.empty, group_map := [("alpha", "g1")],
    workflow_state_map := [("Backlog", 500)],
    default_workflow_state_id := some 500,
    objective_map := Smap.empty, epic_map := Smap.empty }

/-- A client whose create calls all succeed. -/
def okClient : ApplyClient :=
  { createObjective := fun req =>
      .ok { id := 11, name := req.name, description := none, state := "to do",
            app_url := none }
    createEpic := fun req =>
      .ok { id := 22, name := req.name, description := none, state := "to do",
            app_url := none }
    createStory := fun req =>
      .ok { id := 33, name := req.name, story_type := "feature", app_url := none } }

/-- A client whose objective creates are rejected by the API while epic
and story creates succeed. -/
def failObjectiveClient : ApplyClient :=
  { okClient with
    createObjective := fun _ => .error (.api 422 "Validation failed") }

/-- A template loader for a filesystem without any template file. -/
def badLoad : String → Except String Template := fun p =>
  .error ("Cannot read template " ++ sq ++ p ++ sq ++
    ": No such file or directory (os error 2)")

def c2Epic : InputEpic :=
  { name := "E1", description := none, objective := none, owners := [],
    teams := [], labels := [], state := none, start_date := none,
    deadline := none, template := some "missing.md" }

def plainStory : InputStory :=
  { name := "S1", story_type := none, description := none, epic := none,
    owners := [], team := none, labels := [], estimate := none,
    due_date := none, workflow_state := none }

/-- One objective, one epic whose per-item template file is unreadable,
one story. -/
def c2Input : InputFile :=
  { objectives := [{ name := "O1", description := none, state := none }],
    epics := [c2Epic], stories := [plainStory] }

/-- One objective and one story, no epics. -/
def c2WitnessInput : InputFile :=
  { objectives := [{ name := "O1", description := none, state := none }],
    epics := [], stories := [plainStory] }

/-- A story referencing the unknown team "beta". -/
def betaStory : InputStory :=
  { plainStory with team := some "beta" }

/-- A remote that answers 500 to every request. -/
def allRetryResponses : Nat → HttpResp :=
  fun _ => { status := 500, retryAfter := none }

/-- A remote that answers 200 to every request. -/
def okResponses : Nat → HttpResp :=
  fun _ => { status := 200, retryAfter := none }

def c10Epic : InputEpic :=
  { name := "E1", description := none, objective := some " Obj1", owners := [],
    teams := [], labels := [], state := none, start_date := none,
    deadline := none, template := none }

/-- A story whose epic reference differs from the batch epic name "Epic1"
only by a leading space. -/
def c10Story : InputStory :=
  { name := "S2", story_type := none, description := none,
    epic := some " Epic1", owners := [], team := none, labels := [],
    estimate := none, due_date := none, workflow_state := none }

/- ----------------------------------------------------------------------
Association-list map lemmas.
---------------------------------------------------------------------- -/

theorem find?_filter_ne {α : Type} (l : List (String × α)) (k k' : String)
    (h : k' ≠ k) :
    List.find? (fun p => p.1 == k') (List.filter (fun p => p.1 != k) l) =
      List.find? (fun p => p.1 == k') l := by
  induction l with
  | nil => rfl
  | cons a t ih =>
    by_cases ha : a.1 = k'
    · have hk : (a.1 != k) = true := by
        simp [bne_iff_ne, ha]
        exact h
      simp [List.filter_cons, hk, List.find?_cons, ha, h]
    · have ha' : (a.1 == k') = false := by
        simp [ha]
      by_cases hk : a.1 = k
      · have : (a.1 != k) = false := by simp [bne_iff_ne, hk]
        simp [List.filter_cons, this, List.find?_cons, ha', ih]
      · have : (a.1 != k) = true := by simp [bne_iff_ne, hk]
        simp [List.filter_cons, this, List.find?_cons, ha', ih]

theorem Smap.get?_insert_self {α : Type} (m : Smap α) (k : String) (v : α) :
    (m.insert k v).get? k = some v := by
  simp [Smap.insert, Smap.get?, List.find?_cons]

theorem Smap.get?_insert_ne {α : Type} (m : Smap α) (k k' : String) (v : α)
    (h : k' ≠ k) :
    (m.insert k v).get? k' = m.get? k' := by
  have hk : (k == k') = false := by
    simp
    exact fun hkk => h hkk.symm
  simp [Smap.insert, Smap.get?, List.find?_cons, hk, find?_filter_ne m k k' h]

/- ----------------------------------------------------------------------
Resolver registration lemmas.
---------------------------------------------------------------------- -/

theorem objective_map_applyObjectiveRegs (later : List (String × Int))
    (r : Resolver) (name : String) (h : ∀ p ∈ later, p.1 ≠ name) :
    (applyObjectiveRegs later r).objective_map.get? name =
      r.objective_map.get? name := by
  induction later generalizing r with
  | nil => rfl
  | cons p t ih =>
    have hp : p.1 ≠ name := h p (by simp)
    have ht : ∀ q ∈ t, q.1 ≠ name := fun q hq => h q (by simp [hq])
    calc (applyObjectiveRegs (p :: t) r).objective_map.get? name
        = (applyObjectiveRegs t (r.register_objective p.1 p.2)).objective_map.get? name := rfl
      _ = (r.register_objective p.1 p.2).objective_map.get? name := ih _ ht
      _ = r.objective_map.get? name :=
          Smap.get?_insert_ne _ _ _ _ (fun hn => hp hn.symm)

theorem epic_map_applyEpicRegs (later : List (String × Int))
    (r : Resolver) (name : String) (h : ∀ p ∈ later, p.1 ≠ name) :
    (applyEpicRegs later r).epic_map.get? name = r.epic_map.get? name := by
  induction later generalizing r with
  | nil => rfl
  | cons p t ih =>
    have hp : p.1 ≠ name := h p (by simp)
    have ht : ∀ q ∈ t, q.1 ≠ name := fun q hq => h q (by simp [hq])
    calc (applyEpicRegs (p :: t) r).epic_map.get? name
        = (applyEpicRegs t (r.register_epic p.1 p.2)).epic_map.get? name := rfl
      _ = (r.register_epic p.1 p.2).epic_map.get? name := ih _ ht
      _ = r.epic_map.get? name :=
          Smap.get?_insert_ne _ _ _ _ (fun hn => hp hn.symm)

/- ----------------------------------------------------------------------
Claim C6: numeric pass-through in resolve_objective / resolve_epic.
---------------------------------------------------------------------- -/

/-- Claim C6: an input whose trimmed form parses as an `i64` resolves to
that integer as a pass-through, regardless of the dynamic maps; the map
lookup only happens when the trimmed form is not an integer, and then the
result is exactly determined by the map entry under the trimmed name. -/
theorem resolve_numeric_passthrough :
    (∀ (r : Resolver) (name : String) (n : Int),
      parseI64 (strTrim name) = some n →
      r.resolve_objective name = .ok n ∧ r.resolve_epic name = .ok n) ∧
    (∀ (r : Resolver) (name : String),
      parseI64 (strTrim name) = none →
      (r.resolve_objective name =
        match r.objective_map.get? (strTrim name) with
        | some id => .ok id
        | none => .error (.nameNotFound "objective" name)) ∧
      (r.resolve_epic name =
        match r.epic_map.get? (strTrim name) with
        | some id => .ok id
        | none => .error (.nameNotFound "epic" name))) := by
  constructor
  · intro r name n h
    constructor
    · simp [Resolver.resolve_objective, h]
    · simp [Resolver.resolve_epic, h]
  · intro r name h
    constructor
    · simp [Resolver.resolve_objective, h]
    · simp [Resolver.resolve_epic, h]

/-- Witness for C6: the name "123" resolves to 123 even though both
dynamic maps bind it to other IDs. -/
theorem resolve_numeric_passthrough_witness :
    passthroughResolver.resolve_objective "123" = .ok 123 ∧
    passthroughResolver.resolve_epic "123" = .ok 123 :=
  resolve_numeric_passthrough.1 passthroughResolver "123" 123 (by decide)

/- ----------------------------------------------------------------------
Claim C5: register/resolve round trip.
---------------------------------------------------------------------- -/

/-- Counterexample to C5 as stated: for the name " widget" (surrounding
whitespace), registration binds the exact name but resolution trims the
query, so the very next `resolve_objective` with that exact name fails
with NameNotFound instead of returning the registered ID; likewise for
epics. -/
theorem register_resolve_exact_cex :
    (emptyResolver.register_objective " widget" 42).resolve_objective " widget" =
      .error (.nameNotFound "objective" " widget") ∧
    ¬((emptyResolver.register_objective " widget" 42).resolve_objective " widget" =
      .ok 42) ∧
    (emptyResolver.register_epic " widget" 42).resolve_epic " widget" =
      .error (.nameNotFound "epic" " widget") := by
  decide

/-- Claim C5 amended: for a name that equals its trimmed form and whose
trimmed form does not parse as an `i64`, registration makes every
subsequent resolve of that name (through any later registrations of other
names) return the registered ID; a name whose trimmed form is absent from
the dynamic map and is not numeric fails with NameNotFound carrying the
resource kind and the queried name.  Likewise for epics. -/
theorem register_resolve_roundtrip :
    (∀ (r : Resolver) (name : String) (id : Int) (later : List (String × Int)),
      strTrim name = name → parseI64 name = none →
      (∀ p ∈ later, p.1 ≠ name) →
      (applyObjectiveRegs later (r.register_objective name id)).resolve_objective
        name = .ok id) ∧
    (∀ (r : Resolver) (name : String),
      parseI64 (strTrim name) = none →
      r.objective_map.get? (strTrim name) = none →
      r.resolve_objective name = .error (.nameNotFound "objective" name)) ∧
    (∀ (r : Resolver) (name : String) (id : Int) (later : List (String × Int)),
      strTrim name = name → parseI64 name = none →
      (∀ p ∈ later, p.1 ≠ name) →
      (applyEpicRegs later (r.register_epic name id)).resolve_epic name = .ok id) ∧
    (∀ (r : Resolver) (name : String),
      parseI64 (strTrim name) = none →
      r.epic_map.get? (strTrim name) = none →
      r.resolve_epic name = .error (.nameNotFound "epic" name)) := by
  refine ⟨?_, ?_, ?_, ?_⟩
  · intro r name id later htrim hparse hlater
    have hmap : (applyObjectiveRegs later (r.register_objective name id)).objective_map.get?
        name = some id := by
      rw [objective_map_applyObjectiveRegs later _ name hlater]
      exact Smap.get?_insert_self _ _ _
    simp [Resolver.resolve_objective, htrim, hparse, hmap]
  · intro r name hparse hmap
    simp [Resolver.resolve_objective, hparse, hmap]
  · intro r name id later htrim hparse hlater
    have hmap : (applyEpicRegs later (r.register_epic name id)).epic_map.get?
        name = some id := by
      rw [epic_map_applyEpicRegs later _ name hlater]
      exact Smap.get?_insert_self _ _ _
    simp [Resolver.resolve_epic, htrim, hparse, hmap]
  · intro r name hparse hmap
    simp [Resolver.resolve_epic, hparse, hmap]

/-- Witness for the amended C5 at concrete inputs. -/
theorem register_resolve_roundtrip_witness :
    (applyObjectiveRegs [("gadget", 7)]
        (emptyResolver.register_objective "widget" 42)).resolve_objective
      "widget" = .ok 42 ∧
    emptyResolver.resolve_objective "widget" =
      .error (.nameNotFound "objective" "widget") :=
  ⟨register_resolve_roundtrip.1 emptyResolver "widget" 42 [("gadget", 7)]
      (by decide) (by decide) (by decide),
    register_resolve_roundtrip.2.1 emptyResolver "widget" (by decide) (by decide)⟩

/- ----------------------------------------------------------------------
Claim C9: duplicate registration overwrites.
---------------------------------------------------------------------- -/

/-- Counterexample to C9 as stated: after registering the numeric-looking
objective name "7" twice with IDs 1 and 2, a later resolve of "7" returns
the pass-through integer 7, not the most recently registered ID 2. -/
theorem register_overwrite_cex :
    ((emptyResolver.register_objective "7" 1).register_objective "7" 2).resolve_objective
      "7" = .ok 7 ∧
    ¬(((emptyResolver.register_objective "7" 1).register_objective "7" 2).resolve_objective
      "7" = .ok 2) := by
  decide

/-- Claim C9 amended: a second registration of the same name silently
overwrites the dynamic-map entry, and — for a trimmed, non-numeric name —
every later resolve returns the most recently registered ID; duplicate
names are never reported as an error (a tier whose create calls all
succeed records no error entries at all, whatever the names). -/
theorem register_overwrite :
    (∀ (r : Resolver) (name : String) (id1 id2 : Int),
      ((r.register_objective name id1).register_objective name id2).objective_map.get?
        name = some id2) ∧
    (∀ (r : Resolver) (name : String) (id1 id2 : Int),
      strTrim name = name → parseI64 name = none →
      ((r.register_objective name id1).register_objective name id2).resolve_objective
        name = .ok id2) ∧
    (∀ (r : Resolver) (name : String) (id1 id2 : Int),
      strTrim name = name → parseI64 name = none →
      ((r.register_epic name id1).register_epic name id2).resolve_epic
        name = .ok id2) ∧
    (∀ (client : ApplyClient) (objs : List InputObjective) (r : Resolver)
        (res : RunResults) (calls : List CreateCall),
      (∀ req, ∃ o, client.createObjective req = .ok o) →
      (objTier client objs r res calls).2.1.errors = res.errors) := by
  refine ⟨?_, ?_, ?_, ?_⟩
  · intro r name id1 id2
    exact Smap.get?_insert_self _ _ _
  · intro r name id1 id2 htrim hparse
    simp [Resolver.resolve_objective, Resolver.register_objective, htrim,
      hparse, Smap.get?_insert_self]
  · intro r name id1 id2 htrim hparse
    simp [Resolver.resolve_epic, Resolver.register_epic, htrim, hparse,
      Smap.get?_insert_self]
  · intro client objs r res calls hok
    induction objs generalizing r res calls with
    | nil => rfl
    | cons o t ih =>
      obtain ⟨created, hc⟩ := hok (build_objective_request o)
      simp [objTier, hc, ih]

/-- Witness for the amended C9 at concrete inputs: the duplicate-named
objective "Obj" ends up at the most recent ID, and a tier of two
same-named objectives records no errors. -/
theorem register_overwrite_witness :
    ((emptyResolver.register_objective "Obj" 1).register_objective "Obj" 2).resolve_objective
      "Obj" = .ok 2 ∧
    (objTier okClient
      [{ name := "Obj", description := none, state := none },
       { name := "Obj", description := none, state := none }]
      emptyResolver RunResults.empty []).2.1.errors = RunResults.empty.errors :=
  ⟨register_overwrite.2.1 emptyResolver "Obj" 1 2 (by decide) (by decide),
    register_overwrite.2.2.2 okClient _ emptyResolver RunResults.empty []
      (fun req => ⟨_, rfl⟩)⟩

/- ----------------------------------------------------------------------
Claim C1: the default workflow stage.
---------------------------------------------------------------------- -/

theorem statesFold_snd_some (states : List WorkflowState) (m : Smap Int)
    (d : Int) :
    (states.foldl workflowStateStep (m, some d)).2 = some d := by
  induction states generalizing m with
  | nil => rfl
  | cons st rest ih =>
    simp only [List.foldl_cons]
    have : workflowStateStep (m, some d) st = ((m, some d).1.insert st.name st.id, some d) := by
      simp [workflowStateStep]
    rw [this]
    exact ih _

theorem statesFold_snd_none (states : List WorkflowState) (m : Smap Int) :
    (states.foldl workflowStateStep (m, none)).2 = firstUnstartedId states := by
  induction states generalizing m with
  | nil => rfl
  | cons st rest ih =>
    by_cases hu : (st.state_type == "unstarted") = true
    · have hstep : workflowStateStep (m, none) st =
          ((m, (none : Option Int)).1.insert st.name st.id, some st.id) := by
        simp [workflowStateStep, hu]
      simp only [List.foldl_cons, hstep]
      rw [statesFold_snd_some]
      simp [firstUnstartedId, List.find?_cons, hu]
    · have hu' : (st.state_type == "unstarted") = false := by
        simp at hu ⊢
        exact hu
      have hstep : workflowStateStep (m, none) st =
          ((m, (none : Option Int)).1.insert st.name st.id, none) := by
        simp [workflowStateStep, hu']
      simp only [List.foldl_cons, hstep]
      rw [ih]
      simp [firstUnstartedId, List.find?_cons, hu']

theorem wfFold_snd_some (wfs : List Workflow) (acc : Smap Int × Option Int)
    (d : Int) (h : acc.2 = some d) :
    (wfs.foldl workflowStep acc).2 = some d := by
  induction wfs generalizing acc with
  | nil => exact h
  | cons wf rest ih =>
    simp only [List.foldl_cons]
    apply ih
    have hacc : acc = (acc.1, some d) := by
      cases acc with
      | mk a b => simp at h; simp [h]
    rw [hacc]
    have hinner : (wf.states.foldl workflowStateStep (acc.1, some d)).2 = some d :=
      statesFold_snd_some _ _ _
    simp [workflowStep, hinner]

/-- Counterexample to C1 as stated: with a first workflow lacking any
"unstarted" stage (declared default 10) and a second workflow carrying
the unstarted stage 20, the spec's rule picks 20 but the code picks 10 —
the fallback fires as soon as the first definition has been scanned. -/
theorem default_stage_cex :
    (mkResolver [] [] c1Workflows).default_workflow_state_id = some 10 ∧
    specDefaultStageId c1Workflows = some 20 ∧
    ¬((mkResolver [] [] c1Workflows).default_workflow_state_id =
      specDefaultStageId c1Workflows) := by
  decide

/-- Claim C1 amended: the Resolver's default workflow-stage ID is the
first stage tagged "unstarted" of the FIRST workflow definition, falling
back to the first definition's declared default when that definition has
no unstarted stage (later definitions are never consulted); and every
story record with no explicit workflow-stage reference has its
create-request `workflow_state_id` set to exactly this default. -/
theorem default_stage_amended :
    (∀ workflows : List Workflow,
      (buildWorkflowMaps workflows).2 = firstWorkflowDefault workflows) ∧
    (∀ (members : List Member) (groups : List Group)
        (workflows : List Workflow),
      (mkResolver members groups workflows).default_workflow_state_id =
        firstWorkflowDefault workflows) ∧
    (∀ (r : Resolver) (story : InputStory) (req : CreateStoryRequest),
      story.workflow_state = none →
      build_story_request r story = .ok req →
      req.workflow_state_id = r.default_workflow_state_id) := by
  have hmain : ∀ workflows : List Workflow,
      (buildWorkflowMaps workflows).2 = firstWorkflowDefault workflows := by
    intro workflows
    cases workflows with
    | nil => rfl
    | cons wf rest =>
      simp only [buildWorkflowMaps, List.foldl_cons]
      cases hu : firstUnstartedId wf.states with
      | some u =>
        have hinner : (wf.states.foldl workflowStateStep (Smap.empty, none)).2 = some u := by
          rw [statesFold_snd_none]
          exact hu
        have hstep : workflowStep (Smap.empty, none) wf =
            ((wf.states.foldl workflowStateStep (Smap.empty, none)).1, some u) := by
          simp [workflowStep, hinner]
          exact Prod.ext rfl hinner
        rw [hstep, wfFold_snd_some rest _ u rfl]
        simp [firstWorkflowDefault, hu]
      | none =>
        have hinner : (wf.states.foldl workflowStateStep (Smap.empty, none)).2 = none := by
          rw [statesFold_snd_none]
          exact hu
        have hstep : workflowStep (Smap.empty, none) wf =
            ((wf.states.foldl workflowStateStep (Smap.empty, none)).1,
              some wf.default_state_id) := by
          simp [workflowStep, hinner]
        rw [hstep, wfFold_snd_some rest _ wf.default_state_id rfl]
        simp [firstWorkflowDefault, hu]
  refine ⟨hmain, fun members groups workflows => hmain workflows, ?_⟩
  intro r story req hws hok
  unfold build_story_request at hok
  cases h1 : ownerIdsParam r story.owners with
  | error e => rw [h1] at hok; exact absurd hok (by simp)
  | ok owner_ids =>
    rw [h1] at hok
    cases h2 : storyGroupIdParam r story.team with
    | error e => rw [h2] at hok; exact absurd hok (by simp)
    | ok group_id =>
      rw [h2] at hok
      cases h3 : storyEpicIdParam r story.epic with
      | error e => rw [h3] at hok; exact absurd hok (by simp)
      | ok epic_id =>
        rw [h3] at hok
        have h4 : storyWorkflowStateParam r story.workflow_state =
            .ok r.default_workflow_state_id := by
          rw [hws]; rfl
        rw [h4] at hok
        simp at hok
        rw [← hok]

/-- Witness for the amended C1 at concrete inputs: the two-workflow
fixture yields the first definition's declared default, and a concrete
story without a workflow-stage reference gets exactly that id in its
create request. -/
theorem default_stage_amended_witness :
    (mkResolver [] [] c1Workflows).default_workflow_state_id =
      firstWorkflowDefault c1Workflows ∧
    ({ name := "S1", story_type := none, description := none,
       owner_ids := none, group_id := none, epic_id := none,
       workflow_state_id := some 500, labels := none, estimate := none,
       deadline := none } : CreateStoryRequest).workflow_state_id =
      smallResolver.default_workflow_state_id :=
  ⟨default_stage_amended.2.1 [] [] c1Workflows,
    default_stage_amended.2.2 smallResolver plainStory _ rfl (by decide)⟩

/- ----------------------------------------------------------------------
Claim C8: Resolver construction is all-or-nothing.
---------------------------------------------------------------------- -/

/-- Claim C8: `Resolver::new` yields a resolver exactly when all three
read calls succeed — then it is the fully built `mkResolver` — and
produces no resolver value at all (hence no partial maps) when any one of
them fails. -/
theorem resolver_new_all_or_nothing :
    ∀ (members : Except BypassError (List Member))
      (groups : Except BypassError (List Group))
      (workflows : Except BypassError (List Workflow)),
      (∀ ms gs ws, members = .ok ms → groups = .ok gs → workflows = .ok ws →
        Resolver.new members groups workflows = .ok (mkResolver ms gs ws)) ∧
      ((∃ r, Resolver.new members groups workflows = .ok r) ↔
        ((∃ ms, members = .ok ms) ∧ (∃ gs, groups = .ok gs) ∧
          (∃ ws, workflows = .ok ws))) := by
  intro members groups workflows
  constructor
  · intro ms gs ws h1 h2 h3
    rw [h1, h2, h3]
    rfl
  · cases members <;> cases groups <;> cases workflows <;>
      simp [Resolver.new, Bind.bind, Except.bind, Pure.pure, Except.pure]

/-- Witness for C8 at concrete inputs: three successful reads build the
resolver, and a failing members read yields no resolver. -/
theorem resolver_new_all_or_nothing_witness :
    Resolver.new (.ok []) (.ok []) (.ok c1Workflows) =
      .ok (mkResolver [] [] c1Workflows) ∧
    ¬∃ r, Resolver.new (.error (.api 500 "boom")) (.ok []) (.ok []) = .ok r :=
  ⟨(resolver_new_all_or_nothing (.ok []) (.ok []) (.ok c1Workflows)).1
      [] [] c1Workflows rfl rfl rfl,
    fun h =>
      by
        have := (resolver_new_all_or_nothing (.error (.api 500 "boom"))
          (.ok []) (.ok [])).2.mp h
        obtain ⟨⟨ms, hms⟩, _⟩ := this
        exact absurd hms (by simp)⟩

/- ----------------------------------------------------------------------
Claim C3: the retry policy.
---------------------------------------------------------------------- -/

theorem stopIndexAux_succ_pos (responses : Nat → HttpResp) (n attempt : Nat)
    (hc : (retryable (responses attempt).status && decide (attempt < 5)) = true) :
    stopIndexAux responses (n + 1) attempt =
      stopIndexAux responses n (attempt + 1) := by
  simp [stopIndexAux, hc]

theorem stopIndexAux_succ_neg (responses : Nat → HttpResp) (n attempt : Nat)
    (hc : ¬(retryable (responses attempt).status && decide (attempt < 5)) = true) :
    stopIndexAux responses (n + 1) attempt = attempt := by
  simp [stopIndexAux, hc]

theorem sendAux_succ_pos (responses : Nat → HttpResp) (n attempt : Nat)
    (hc : (retryable (responses attempt).status && decide (attempt < 5)) = true) :
    sendWithRetryAux responses (n + 1) attempt =
      ((sendWithRetryAux responses n (attempt + 1)).1,
        (sendWithRetryAux responses n (attempt + 1)).2.1 + 1,
        backoffDelay (responses attempt) attempt ::
          (sendWithRetryAux responses n (attempt + 1)).2.2) := by
  simp [sendWithRetryAux, hc]

theorem sendAux_succ_neg (responses : Nat → HttpResp) (n attempt : Nat)
    (hc : ¬(retryable (responses attempt).status && decide (attempt < 5)) = true) :
    sendWithRetryAux responses (n + 1) attempt = (responses attempt, 1, []) := by
  simp [sendWithRetryAux, hc]

theorem stopIndexAux_ge (responses : Nat → HttpResp) :
    ∀ fuel attempt, attempt ≤ stopIndexAux responses fuel attempt := by
  intro fuel
  induction fuel with
  | zero => intro attempt; exact Nat.le_refl _
  | succ n ih =>
    intro attempt
    by_cases hc : (retryable (responses attempt).status && decide (attempt < 5)) = true
    · have := ih (attempt + 1)
      rw [stopIndexAux_succ_pos responses n attempt hc]
      omega
    · rw [stopIndexAux_succ_neg responses n attempt hc]

theorem stopIndexAux_le5 (responses : Nat → HttpResp) :
    ∀ fuel attempt, attempt ≤ 5 → stopIndexAux responses fuel attempt ≤ 5 := by
  intro fuel
  induction fuel with
  | zero => intro attempt h; exact h
  | succ n ih =>
    intro attempt h
    by_cases hc : (retryable (responses attempt).status && decide (attempt < 5)) = true
    · have h5 : attempt < 5 := of_decide_eq_true ((Bool.and_eq_true _ _).mp hc).2
      rw [stopIndexAux_succ_pos responses n attempt hc]
      exact ih (attempt + 1) (by omega)
    · rw [stopIndexAux_succ_neg responses n attempt hc]
      exact h

theorem stopIndexAux_retryable (responses : Nat → HttpResp) :
    ∀ fuel attempt k, attempt ≤ k → k < stopIndexAux responses fuel attempt →
      retryable (responses k).status = true := by
  intro fuel
  induction fuel with
  | zero =>
    intro attempt k hak hk
    simp only [stopIndexAux] at hk
    omega
  | succ n ih =>
    intro attempt k hak hk
    by_cases hc : (retryable (responses attempt).status && decide (attempt < 5)) = true
    · rcases Nat.eq_or_lt_of_le hak with heq | hlt
      · subst heq
        exact ((Bool.and_eq_true _ _).mp hc).1
      · rw [stopIndexAux_succ_pos responses n attempt hc] at hk
        exact ih (attempt + 1) k hlt hk
    · rw [stopIndexAux_succ_neg responses n attempt hc] at hk
      omega

theorem stopIndexAux_final (responses : Nat → HttpResp) :
    ∀ fuel attempt, 5 ≤ attempt + fuel → attempt ≤ 5 →
      (retryable (responses (stopIndexAux responses fuel attempt)).status = false ∨
        stopIndexAux responses fuel attempt = 5) := by
  intro fuel
  induction fuel with
  | zero =>
    intro attempt h1 h2
    right
    simp only [stopIndexAux]
    omega
  | succ n ih =>
    intro attempt h1 h2
    by_cases hc : (retryable (responses attempt).status && decide (attempt < 5)) = true
    · have h5 : attempt < 5 := of_decide_eq_true ((Bool.and_eq_true _ _).mp hc).2
      rw [stopIndexAux_succ_pos responses n attempt hc]
      exact ih (attempt + 1) (by omega) (by omega)
    · rw [stopIndexAux_succ_neg responses n attempt hc]
      by_cases hr : retryable (responses attempt).status = true
      · right
        have hd : ¬(attempt < 5) := by
          intro hlt
          exact hc (by simp [hr, hlt])
        omega
      · left
        simpa using hr

theorem sendAux_spec (responses : Nat → HttpResp) :
    ∀ fuel attempt,
      (sendWithRetryAux responses fuel attempt).1 =
        responses (stopIndexAux responses fuel attempt) ∧
      (sendWithRetryAux responses fuel attempt).2.1 =
        stopIndexAux responses fuel attempt + 1 - attempt ∧
      (sendWithRetryAux responses fuel attempt).2.2 =
        (List.range' attempt (stopIndexAux responses fuel attempt - attempt)).map
          (fun n => backoffDelay (responses n) n) := by
  intro fuel
  induction fuel with
  | zero =>
    intro attempt
    refine ⟨rfl, by simp only [sendWithRetryAux, stopIndexAux]; omega, ?_⟩
    simp only [sendWithRetryAux, stopIndexAux]
    rw [Nat.sub_self]
    rfl
  | succ n ih =>
    intro attempt
    by_cases hc : (retryable (responses attempt).status && decide (attempt < 5)) = true
    · have hge : attempt + 1 ≤ stopIndexAux responses n (attempt + 1) :=
        stopIndexAux_ge responses n (attempt + 1)
      have hstop := stopIndexAux_succ_pos responses n attempt hc
      have hsend := sendAux_succ_pos responses n attempt hc
      obtain ⟨ih1, ih2, ih3⟩ := ih (attempt + 1)
      refine ⟨?_, ?_, ?_⟩
      · rw [hsend, hstop]
        exact ih1
      · rw [hsend, hstop]
        simp only []
        rw [ih2]
        omega
      · rw [hsend, hstop]
        simp only []
        rw [ih3]
        have hk : stopIndexAux responses n (attempt + 1) - attempt =
            (stopIndexAux responses n (attempt + 1) - (attempt + 1)) + 1 := by
          omega
        rw [hk]
        rfl
    · have hstop := stopIndexAux_succ_neg responses n attempt hc
      have hsend := sendAux_succ_neg responses n attempt hc
      refine ⟨?_, ?_, ?_⟩
      · rw [hsend, hstop]
      · rw [hsend, hstop]
        show 1 = attempt + 1 - attempt
        omega
      · rw [hsend, hstop]
        rw [Nat.sub_self]
        rfl

/-- Claim C3: the Transport Client retries exactly while the status is in
the retryable set and fewer than 5 retries have happened; the loop stops
at the first non-retryable response or at attempt 5, so at most 6
requests are issued; a non-retryable first response is returned
immediately with no delay. -/
theorem send_with_retry_policy :
    ∀ responses : Nat → HttpResp,
      (sendWithRetry responses).1 = responses (stopIndex responses) ∧
      (sendWithRetry responses).2.1 = stopIndex responses + 1 ∧
      stopIndex responses ≤ 5 ∧
      (∀ k, k < stopIndex responses → retryable (responses k).status = true) ∧
      (retryable (responses (stopIndex responses)).status = false ∨
        stopIndex responses = 5) ∧
      (retryable (responses 0).status = false →
        sendWithRetry responses = (responses 0, 1, [])) := by
  intro responses
  obtain ⟨h1, h2, h3⟩ := sendAux_spec responses 6 0
  have H1 : (sendWithRetry responses).1 = responses (stopIndex responses) := h1
  have H2 : (sendWithRetry responses).2.1 = stopIndex responses + 1 - 0 := h2
  have H3 : (sendWithRetry responses).2.2 =
      (List.range' 0 (stopIndex responses - 0)).map
        (fun n => backoffDelay (responses n) n) := h3
  refine ⟨H1, by rw [H2]; omega,
    stopIndexAux_le5 responses 6 0 (by omega),
    fun k hk => stopIndexAux_retryable responses 6 0 k (Nat.zero_le k) hk,
    stopIndexAux_final responses 6 0 (by omega) (by omega), ?_⟩
  intro h0
  have hstop : stopIndex responses = 0 := by
    by_contra hne
    have hpos : 0 < stopIndex responses := Nat.pos_of_ne_zero hne
    have := stopIndexAux_retryable responses 6 0 0 (Nat.le_refl 0) hpos
    rw [h0] at this
    exact Bool.false_ne_true this
  have e1 : (sendWithRetry responses).1 = responses 0 := by rw [H1, hstop]
  have e2 : (sendWithRetry responses).2.1 = 1 := by rw [H2, hstop]
  have e3 : (sendWithRetry responses).2.2 = [] := by
    rw [H3, hstop]
    rfl
  exact Prod.ext e1 (Prod.ext e2 e3)

/-- Witness for C3 at concrete oracles: an always-500 remote is asked 6
times and the 6th response is returned; a 200 remote is returned
immediately with no retries and no delays. -/
theorem send_with_retry_policy_witness :
    (sendWithRetry allRetryResponses).1 =
      allRetryResponses (stopIndex allRetryResponses) ∧
    retryable (allRetryResponses 0).status = true ∧
    sendWithRetry okResponses = (okResponses 0, 1, []) :=
  ⟨(send_with_retry_policy allRetryResponses).1,
    (send_with_retry_policy allRetryResponses).2.2.2.1 0 (by decide),
    (send_with_retry_policy okResponses).2.2.2.2.2 (by decide)⟩

/- ----------------------------------------------------------------------
Claim C4: the backoff delay schedule.
---------------------------------------------------------------------- -/

/-- Claim C4: the delay before retry attempt n is the parsed
`Retry-After` seconds for a 429 carrying such a header, and `2 ^ n` base
units otherwise (including a 429 without a parseable header); every delay
is capped at 30 units; and the delays slept by the loop are exactly these
values at attempts `0, 1, …`. -/
theorem backoff_delay_schedule :
    (∀ (resp : HttpResp) (n secs : Nat),
      resp.status = 429 → resp.retryAfter.bind parseU64 = some secs →
      backoffDelay resp n = min secs 30) ∧
    (∀ (resp : HttpResp) (n : Nat),
      resp.status = 429 → resp.retryAfter.bind parseU64 = none →
      backoffDelay resp n = min (2 ^ n) 30) ∧
    (∀ (resp : HttpResp) (n : Nat), ¬(resp.status = 429) →
      backoffDelay resp n = min (2 ^ n) 30) ∧
    (∀ (resp : HttpResp) (n : Nat), backoffDelay resp n ≤ 30) ∧
    (∀ responses : Nat → HttpResp,
      (sendWithRetry responses).2.2 =
        (List.range (stopIndex responses)).map
          (fun n => backoffDelay (responses n) n)) := by
  refine ⟨?_, ?_, ?_, ?_, ?_⟩
  · intro resp n secs h429 hra
    simp [backoffDelay, h429, hra]
  · intro resp n h429 hra
    simp [backoffDelay, h429, hra]
  · intro resp n h429
    have : (resp.status == 429) = false := by
      simp [h429]
    simp [backoffDelay, this]
  · intro resp n
    exact Nat.min_le_right _ _
  · intro responses
    obtain ⟨h1, h2, h3⟩ := sendAux_spec responses 6 0
    have H3 : (sendWithRetry responses).2.2 =
        (List.range' 0 (stopIndex responses - 0)).map
          (fun n => backoffDelay (responses n) n) := h3
    rw [H3, Nat.sub_zero, List.range_eq_range']

/-- Witness for C4 at concrete inputs: `Retry-After: 7` at attempt 3
waits 7, `Retry-After: 100` is capped to 30, and a 500 at attempt 2
waits `2 ^ 2`. -/
theorem backoff_delay_schedule_witness :
    backoffDelay { status := 429, retryAfter := some "7" } 3 = min 7 30 ∧
    backoffDelay { status := 429, retryAfter := some "100" } 0 = min 100 30 ∧
    backoffDelay { status := 500, retryAfter := none } 2 = min (2 ^ 2) 30 :=
  ⟨backoff_delay_schedule.1 _ 3 7 rfl (by decide),
    backoff_delay_schedule.1 _ 0 100 rfl (by decide),
    backoff_delay_schedule.2.2.1 _ 2 (by decide)⟩

/- ----------------------------------------------------------------------
Claim C2: record-level failures never abort the batch.
---------------------------------------------------------------------- -/

theorem objTier_spec (client : ApplyClient) :
    ∀ (objs : List InputObjective) (r : Resolver) (res : RunResults)
      (calls : List CreateCall),
      ((objTier client objs r res calls).2.1.objectives_ok +
          (objTier client objs r res calls).2.1.errors.length =
        res.objectives_ok + res.errors.length + objs.length) ∧
      (objTier client objs r res calls).2.1.epics_ok = res.epics_ok ∧
      (objTier client objs r res calls).2.1.stories_ok = res.stories_ok := by
  intro objs
  induction objs with
  | nil => intro r res calls; exact ⟨by simp [objTier], rfl, rfl⟩
  | cons o t ih =>
    intro r res calls
    cases hc : client.createObjective (build_objective_request o) with
    | ok created =>
      obtain ⟨a, b, c⟩ := ih (r.register_objective o.name created.id)
        { res with objectives_ok := res.objectives_ok + 1 }
        (calls ++ [.objective (build_objective_request o)])
      simp only [objTier, hc]
      simp at a b c
      refine ⟨?_, b, c⟩
      simp only [List.length_cons]
      omega
    | error e =>
      obtain ⟨a, b, c⟩ := ih r
        { res with errors := res.errors ++ [objectiveFailMsg o.name e.toMessage] }
        (calls ++ [.objective (build_objective_request o)])
      simp only [objTier, hc]
      simp [List.length_append] at a b c
      refine ⟨?_, b, c⟩
      simp only [List.length_cons]
      omega

theorem storyTier_spec (client : ApplyClient) :
    ∀ (stories : List InputStory) (r : Resolver) (res : RunResults)
      (calls : List CreateCall),
      ((storyTier client stories r res calls).1.stories_ok +
          (storyTier client stories r res calls).1.errors.length =
        res.stories_ok + res.errors.length + stories.length) ∧
      (storyTier client stories r res calls).1.objectives_ok = res.objectives_ok ∧
      (storyTier client stories r res calls).1.epics_ok = res.epics_ok := by
  intro stories
  induction stories with
  | nil => intro r res calls; exact ⟨by simp [storyTier], rfl, rfl⟩
  | cons s t ih =>
    intro r res calls
    cases hb : build_story_request r s with
    | ok req =>
      cases hc : client.createStory req with
      | ok created =>
        obtain ⟨a, b, c⟩ := ih r
          { res with stories_ok := res.stories_ok + 1 }
          (calls ++ [.story req])
        simp only [storyTier, hb, hc]
        simp at a b c
        refine ⟨?_, b, c⟩
        simp only [List.length_cons]
        omega
      | error e =>
        obtain ⟨a, b, c⟩ := ih r
          { res with errors := res.errors ++ [storyFailMsg s.name e.toMessage] }
          (calls ++ [.story req])
        simp only [storyTier, hb, hc]
        simp [List.length_append] at a b c
        refine ⟨?_, b, c⟩
        simp only [List.length_cons]
        omega
    | error e =>
      obtain ⟨a, b, c⟩ := ih r
        { res with errors := res.errors ++ [storyFailMsg s.name e.toMessage] }
        calls
      simp only [storyTier, hb]
      simp [List.length_append] at a b c
      refine ⟨?_, b, c⟩
      simp only [List.length_cons]
      omega

theorem epicTier_spec (client : ApplyClient)
    (loadTmpl : String → Except String Template)
    (globalTemplate : Option Template) :
    ∀ (epics : List InputEpic) (r : Resolver) (res : RunResults)
      (calls : List CreateCall),
      (∀ e ∈ epics, ∀ p, e.template = some p → ∃ t, loadTmpl p = .ok t) →
      ∃ r2 res2 c2,
        epicTier client loadTmpl globalTemplate epics r res calls =
          .ok (r2, res2, c2) ∧
        res2.epics_ok + res2.errors.length =
          res.epics_ok + res.errors.length + epics.length ∧
        res2.objectives_ok = res.objectives_ok ∧
        res2.stories_ok = res.stories_ok := by
  intro epics
  induction epics with
  | nil =>
    intro r res calls h
    exact ⟨r, res, calls, rfl, by simp, rfl, rfl⟩
  | cons e t ih =>
    intro r res calls h
    have ht : ∀ x ∈ t, ∀ p, x.template = some p → ∃ tpl, loadTmpl p = .ok tpl :=
      fun x hx => h x (by simp [hx])
    have htl : ∃ pi, loadPerItemTemplate loadTmpl e.template = .ok pi := by
      cases he : e.template with
      | none => exact ⟨none, rfl⟩
      | some p =>
        obtain ⟨tpl, htpl⟩ := h e (by simp) p he
        exact ⟨some tpl, by simp [loadPerItemTemplate, htpl, Except.map]⟩
    obtain ⟨pi, hpi⟩ := htl
    cases hb : build_epic_request r e (effectiveTemplate pi globalTemplate) with
    | ok req =>
      cases hc : client.createEpic req with
      | ok created =>
        obtain ⟨r2, res2, c2, h1, h2, h3, h4⟩ := ih
          (r.register_epic e.name created.id)
          { res with epics_ok := res.epics_ok + 1 }
          (calls ++ [.epic req]) ht
        refine ⟨r2, res2, c2, ?_, ?_, ?_, ?_⟩
        · simp only [epicTier, hpi, hb, hc]
          exact h1
        · simp at h2
          simp only [List.length_cons]
          omega
        · simpa using h3
        · simpa using h4
      | error err =>
        obtain ⟨r2, res2, c2, h1, h2, h3, h4⟩ := ih r
          { res with errors := res.errors ++ [epicFailMsg e.name err.toMessage] }
          (calls ++ [.epic req]) ht
        refine ⟨r2, res2, c2, ?_, ?_, ?_, ?_⟩
        · simp only [epicTier, hpi, hb, hc]
          exact h1
        · simp [List.length_append] at h2
          simp only [List.length_cons]
          omega
        · simpa using h3
        · simpa using h4
    | error err =>
      obtain ⟨r2, res2, c2, h1, h2, h3, h4⟩ := ih r
        { res with errors := res.errors ++ [epicFailMsg e.name err.toMessage] }
        calls ht
      refine ⟨r2, res2, c2, ?_, ?_, ?_, ?_⟩
      · simp only [epicTier, hpi, hb]
        exact h1
      · simp [List.length_append] at h2
        simp only [List.length_cons]
        omega
      · simpa using h3
      · simpa using h4

/-- Counterexample to C2 as stated: with an always-succeeding API, a
batch containing an epic whose per-item template file cannot be read
makes the whole run abort with that load error — the failure is not
appended to the run's failure list and the story tier never runs. -/
theorem template_failure_aborts_run_cex :
    runPipeline okClient badLoad none c2Input smallResolver =
      .error ("Cannot read template " ++ sq ++ "missing.md" ++ sq ++
        ": No such file or directory (os error 2)") := by
  decide

/-- Claim C2 amended: resolution and API failures at the single-record
level are appended to the failure list and processing continues — every
record of every tier yields exactly one outcome (a success counter bump
or one failure entry) — provided every epic's per-item template loads;
a template-load failure instead aborts the run. -/
theorem run_continues_on_record_failures :
    ∀ (client : ApplyClient) (loadTmpl : String → Except String Template)
      (globalTemplate : Option Template) (input : InputFile)
      (resolver : Resolver),
      (∀ e ∈ input.epics, ∀ p, e.template = some p → ∃ t, loadTmpl p = .ok t) →
      ∃ res calls,
        runPipeline client loadTmpl globalTemplate input resolver =
          .ok (res, calls) ∧
        res.objectives_ok + res.epics_ok + res.stories_ok + res.errors.length =
          input.objectives.length + input.epics.length + input.stories.length := by
  intro client loadTmpl globalTemplate input resolver h
  obtain ⟨ha, hb, hc⟩ := objTier_spec client input.objectives resolver
    RunResults.empty []
  obtain ⟨r2, res2, c2, he, he1, he2, he3⟩ :=
    epicTier_spec client loadTmpl globalTemplate input.epics
      (objTier client input.objectives resolver RunResults.empty []).1
      (objTier client input.objectives resolver RunResults.empty []).2.1
      (objTier client input.objectives resolver RunResults.empty []).2.2 h
  obtain ⟨hsa, hsb, hsc⟩ := storyTier_spec client input.stories r2 res2 c2
  refine ⟨(storyTier client input.stories r2 res2 c2).1,
    (storyTier client input.stories r2 res2 c2).2, ?_, ?_⟩
  · simp only [runPipeline]
    rw [he]
  · have e1 : RunResults.empty.objectives_ok = 0 := rfl
    have e2 : RunResults.empty.epics_ok = 0 := rfl
    have e3 : RunResults.empty.stories_ok = 0 := rfl
    have e4 : RunResults.empty.errors.length = 0 := rfl
    rw [e1, e4] at ha
    rw [e2] at hb
    rw [e3] at hc
    omega

/-- Witness for the amended C2 at concrete inputs: with the objective
create failing and the story create succeeding, the run completes with
one success, one failure entry, and both records accounted for. -/
theorem run_continues_on_record_failures_witness :
    ∃ res calls,
      runPipeline failObjectiveClient badLoad none c2WitnessInput
        smallResolver = .ok (res, calls) ∧
      res.objectives_ok + res.epics_ok + res.stories_ok + res.errors.length =
        c2WitnessInput.objectives.length + c2WitnessInput.epics.length +
          c2WitnessInput.stories.length :=
  run_continues_on_record_failures failObjectiveClient badLoad none
    c2WitnessInput smallResolver (by intro e he p hp; cases he)

/- ----------------------------------------------------------------------
Claim C7: dry-run issues no create calls; unknown team yields exactly
one violation.
---------------------------------------------------------------------- -/

/-- Claim C7: in dry-run mode no create endpoint is ever called for any
record of any tier; and a batch with a single story whose team reference
is absent from the fetched team map yields exactly one violation, built
from the story's name and the unknown team name. -/
theorem dry_run_no_creates_and_team_violation :
    (∀ (client : ApplyClient) (loadTmpl : String → Except String Template)
        (globalTemplate : Option Template) (fileExists : String → Bool)
        (input : InputFile) (resolver : Resolver),
      (executeCreate true client loadTmpl globalTemplate fileExists input
        resolver).createCalls = []) ∧
    (∀ (r : Resolver) (story : InputStory) (teamName : String)
        (fe : String → Bool),
      story.name ≠ "" → story.story_type = none → story.owners = [] →
      story.team = some teamName → story.epic = none →
      story.workflow_state = none →
      r.group_map.containsKey (strTrim teamName) = false →
      dryRun { objectives := [], epics := [], stories := [story] } r fe =
        [storyUnknownTeamMsg story.name teamName
          (list_sample r.available_groups)]) := by
  constructor
  · intro client loadTmpl globalTemplate fileExists input resolver
    rfl
  · intro r story teamName fe hn hst how hteam hepic hws hck
    have hname : (story.name == "") = false := by
      simp
      exact hn
    simp [dryRun, dryRunStoryErrors, hname, hst, how, hteam, hepic, hws, hck]

/-- Witness for C7 at concrete inputs: the one-story batch referencing
the team "beta", with only "alpha" fetched, yields exactly the one
violation. -/
theorem dry_run_no_creates_and_team_violation_witness :
    (executeCreate true okClient badLoad none (fun _ => true)
      { objectives := [], epics := [], stories := [betaStory] }
      smallResolver).createCalls = [] ∧
    dryRun { objectives := [], epics := [], stories := [betaStory] }
        smallResolver (fun _ => true) =
      [storyUnknownTeamMsg "S1" "beta" (list_sample smallResolver.available_groups)] :=
  ⟨dry_run_no_creates_and_team_violation.1 okClient badLoad none
      (fun _ => true) _ smallResolver,
    dry_run_no_creates_and_team_violation.2 smallResolver betaStory "beta"
      (fun _ => true) (by decide) rfl rfl rfl rfl rfl (by decide)⟩

/- ----------------------------------------------------------------------
Claim C10: untrimmed same-batch reference check vs trimmed apply-mode
resolution.
---------------------------------------------------------------------- -/

/-- Claim C10: dry-run's same-batch check compares the reference string
untrimmed against the batch record names, so a non-numeric epic objective
reference (or story epic reference) that differs from a batch record's
name only by surrounding whitespace is reported as a violation; apply
mode, however, resolves the same reference once that record is created
and registered, because `resolve_objective` / `resolve_epic` trim the
queried name. -/
theorem dry_run_untrimmed_reference_vs_apply :
    (∀ (r : Resolver) (epic : InputEpic) (batchObjectives : List String)
        (objName ref : String) (id : Int) (fe : String → Bool),
      r.objective_map = Smap.empty →
      epic.name ≠ "" → epic.state = none → epic.owners = [] →
      epic.teams = [] → epic.objective = some ref → epic.template = none →
      strTrim ref = objName → ¬(ref = objName) →
      batchObjectives.contains objName = true →
      batchObjectives.contains ref = false →
      parseI64 ref = none → parseI64 objName = none →
      dryRunEpicErrors r batchObjectives fe epic =
        [epicObjectiveNotFoundMsg epic.name ref] ∧
      (r.register_objective objName id).resolve_objective ref = .ok id) ∧
    (∀ (r : Resolver) (story : InputStory) (batchEpics : List String)
        (epicName ref : String) (id : Int),
      r.epic_map = Smap.empty →
      story.name ≠ "" → story.story_type = none → story.owners = [] →
      story.team = none → story.epic = some ref →
      story.workflow_state = none →
      strTrim ref = epicName → ¬(ref = epicName) →
      batchEpics.contains epicName = true →
      batchEpics.contains ref = false →
      parseI64 ref = none → parseI64 epicName = none →
      dryRunStoryErrors r batchEpics story =
        [storyEpicNotFoundMsg story.name ref] ∧
      (r.register_epic epicName id).resolve_epic ref = .ok id) := by
  constructor
  · intro r epic batchObjectives objName ref id fe hmap hn hst how hteams href
      htmpl htrim hne hcontains hrefcontains hparse hparse2
    constructor
    · have hname : (epic.name == "") = false := by
        simp
        exact hn
      have hck : r.objective_map.containsKey (strTrim ref) = false := by
        rw [hmap]
        rfl
      have hnotmem : ref ∉ batchObjectives := by
        simpa using hrefcontains
      simp [dryRunEpicErrors, hname, hst, how, hteams, href, htmpl, hparse,
        hrefcontains, hnotmem, hck]
    · have hget : (r.register_objective objName id).objective_map.get? objName =
          some id := Smap.get?_insert_self _ _ _
      simp [Resolver.resolve_objective, htrim, hparse2, hget]
  · intro r story batchEpics epicName ref id hmap hn hty how hteam href hws
      htrim hne hcontains hrefcontains hparse hparse2
    constructor
    · have hname : (story.name == "") = false := by
        simp
        exact hn
      have hck : r.epic_map.containsKey (strTrim ref) = false := by
        rw [hmap]
        rfl
      have hnotmem : ref ∉ batchEpics := by
        simpa using hrefcontains
      simp [dryRunStoryErrors, hname, hty, how, hteam, href, hws, hparse,
        hrefcontains, hnotmem, hck]
    · have hget : (r.register_epic epicName id).epic_map.get? epicName =
          some id := Smap.get?_insert_self _ _ _
      simp [Resolver.resolve_epic, htrim, hparse2, hget]

/-- Witness for C10 at concrete inputs: the epic referencing " Obj1"
(with batch objective "Obj1") is flagged in dry-run yet resolves in
apply mode after "Obj1" is registered with ID 77; the story referencing
" Epic1" (with batch epic "Epic1") is flagged in dry-run yet resolves
after "Epic1" is registered with ID 88. -/
theorem dry_run_untrimmed_reference_vs_apply_witness :
    (dryRunEpicErrors emptyResolver ["Obj1"] (fun _ => false) c10Epic =
        [epicObjectiveNotFoundMsg "E1" " Obj1"] ∧
      (emptyResolver.register_objective "Obj1" 77).resolve_objective " Obj1" =
        .ok 77) ∧
    (dryRunStoryErrors emptyResolver ["Epic1"] c10Story =
        [storyEpicNotFoundMsg "S2" " Epic1"] ∧
      (emptyResolver.register_epic "Epic1" 88).resolve_epic " Epic1" =
        .ok 88) :=
  ⟨dry_run_untrimmed_reference_vs_apply.1 emptyResolver c10Epic ["Obj1"]
      "Obj1" " Obj1" 77 (fun _ => false) rfl (by decide) rfl rfl rfl rfl rfl
      (by decide) (by decide) (by decide) (by decide) (by decide) (by decide),
    dry_run_untrimmed_reference_vs_apply.2 emptyResolver c10Story ["Epic1"]
      "Epic1" " Epic1" 88 rfl (by decide) rfl rfl rfl rfl rfl
      (by decide) (by decide) (by decide) (by decide) (by decide) (by decide)⟩

end Bypass
